import Mathlib

/-!
Shallow embedding of the core of the `medicine` web application:
the drug-interaction resolver (`src/server/db-storage.ts`,
`src/server/routes.ts`) and the medication due-computation
(`src/client/src/lib/reminders.ts`).  Asynchronous database calls are
modelled by explicit state passing over in-memory tables; JavaScript
numbers are modelled as `Int`; nullable columns as `Option`.
-/

/-- A row of the `medicines` table (src/shared/schema.ts).  Only the columns
that identify a record are carried; the remaining columns (aliases, uses,
dosage, …) are display payload never consulted by the modelled operations. -/
structure Medicine where
  id : Int
  name : String
  description : String
  category : String
  deriving Repr, DecidableEq

/-- A row of the `drug_interactions` table (src/shared/schema.ts 44–53).
The `createdAt` timestamp column is not modelled. -/
structure DrugInteraction where
  id : Int
  medicine1Id : Int
  medicine2Id : Int
  severity : String
  description : String
  effects : String
  management : Option String
  deriving Repr, DecidableEq

/-- `DrugInteractionDetail` (src/server/storage.ts): an interaction row
joined with the two full `Medicine` records, built in memory for responses. -/
structure DrugInteractionDetail where
  interaction : DrugInteraction
  medicine1 : Medicine
  medicine2 : Medicine
  deriving Repr, DecidableEq

/-- A primitive JavaScript value as it can appear inside a parsed JSON
message.  On the WebSocket path `data.medicineIds` reaches
`storage.checkInteractions` without element validation, so the resolver is
modelled over these.  A nested array or object element behaves exactly like
`str`/`jsNull` for the purposes of this model: strict equality (`===`)
against a number is false, so one constructor per non-numeric shape
suffices. -/
inductive JsPrim where
  | num (n : Int)
  | str (s : String)
  | jsNull
  deriving Repr, DecidableEq

/-- `Array.prototype.includes(x)` on an array `xs` when `x` is a JS number:
SameValueZero equality, which across types never coerces, so only a `num`
element equal to `n` matches. -/
def jsContains (xs : List JsPrim) (n : Int) : Bool :=
  xs.any fun v => v == JsPrim.num n

/-- `PostgresStorage.getMedicineById` (src/server/db-storage.ts 41–44):
`SELECT ... WHERE id = ?` then `results[0]`. -/
def getMedicineById (medicines : List Medicine) (id : Int) : Option Medicine :=
  (medicines.filter fun m => m.id == id).head?

/-- The body of the enrichment loop shared by `getInteractions` and
`checkInteractions` (src/server/db-storage.ts 130–141 and 171–182): fetch
both medicine records and push a detail only when both resolve; a pair with
a missing medicine is skipped without error. -/
def joinDetail (medicines : List Medicine) (i : DrugInteraction) :
    Option DrugInteractionDetail :=
  match getMedicineById medicines i.medicine1Id,
        getMedicineById medicines i.medicine2Id with
  | some m1, some m2 =>
      some { interaction := i, medicine1 := m1, medicine2 := m2 }
  | _, _ => none

/-- `PostgresStorage.checkInteractions` (src/server/db-storage.ts 146–185).
The SQL pre-query (`medicine1_id IN ids OR medicine2_id IN ids`) is modelled
with the same strict containment as the subsequent JavaScript
`includes` filter; Postgres coercion of stray string literals can only
enlarge the pre-query result, and every extra row is removed again by the
strict `filter`, so the returned list is unaffected. -/
def checkInteractions (medicines : List Medicine) (store : List DrugInteraction)
    (medicineIds : List JsPrim) : List DrugInteractionDetail :=
  if medicineIds.length < 2 then []
  else
    let interactions := store.filter fun i =>
      jsContains medicineIds i.medicine1Id || jsContains medicineIds i.medicine2Id
    let relevantInteractions := interactions.filter fun i =>
      jsContains medicineIds i.medicine1Id && jsContains medicineIds i.medicine2Id
    relevantInteractions.filterMap (joinDetail medicines)

/-- The response of the POST /api/interactions/check handler, reduced to the
two outcomes the handler can produce after the zod schema accepted the
body. -/
inductive HttpCheckResponse where
  | ok (interactions : List DrugInteractionDetail)
  | badRequest (message : String)
  deriving Repr, DecidableEq

/-- POST /api/interactions/check handler (src/server/routes.ts 142–170)
after `z.object({medicineIds: z.array(z.number())})` has established that
`medicineIds` is a list of numbers: fewer than two ids is answered with
HTTP 400 before the storage layer is touched, otherwise the storage result
is returned. -/
def checkInteractionsRoute (medicines : List Medicine)
    (store : List DrugInteraction) (medicineIds : List Int) : HttpCheckResponse :=
  if medicineIds.length < 2 then
    .badRequest "At least two medicines must be provided to check for interactions"
  else
    .ok (checkInteractions medicines store (medicineIds.map JsPrim.num))

/-- The insert payload accepted by `addInteraction`
(`InsertDrugInteraction`, src/shared/schema.ts 129–136). -/
structure InsertDrugInteraction where
  medicine1Id : Int
  medicine2Id : Int
  severity : String
  description : String
  effects : String
  management : Option String
  deriving Repr, DecidableEq

/-- `PostgresStorage.addInteraction` (src/server/db-storage.ts 187–206):
swap the two medicine ids when the first is larger, then insert a fresh row.
The serial primary key is modelled by `nextId`; `createdAt` is not
modelled.  Returns the grown table and the inserted row
(`result[0]` of `returning()`). -/
def addInteraction (store : List DrugInteraction) (nextId : Int)
    (interaction : InsertDrugInteraction) :
    List DrugInteraction × DrugInteraction :=
  let ids :=
    if interaction.medicine1Id > interaction.medicine2Id then
      (interaction.medicine2Id, interaction.medicine1Id)
    else
      (interaction.medicine1Id, interaction.medicine2Id)
  let row : DrugInteraction :=
    { id := nextId, medicine1Id := ids.1, medicine2Id := ids.2,
      severity := interaction.severity, description := interaction.description,
      effects := interaction.effects, management := interaction.management }
  (store ++ [row], row)

/-- `Partial<InsertDrugInteraction>`: the PATCH payload, every field
optional.  A present `management` key may itself carry null, hence the
nested option. -/
structure DrugInteractionPatch where
  medicine1Id : Option Int
  medicine2Id : Option Int
  severity : Option String
  description : Option String
  effects : Option String
  management : Option (Option String)
  deriving Repr, DecidableEq

/-- The reordering prologue of `PostgresStorage.updateInteraction`
(src/server/db-storage.ts 209–220): only when both medicine ids are present
in the patch are they swapped into ascending order. -/
def canonicalizePatch (p : DrugInteractionPatch) : DrugInteractionPatch :=
  match p.medicine1Id, p.medicine2Id with
  | some a, some b =>
      if a > b then { p with medicine1Id := some b, medicine2Id := some a }
      else p
  | _, _ => p

/-- Drizzle `update().set(patch)` on one row: every column present in the
patch overwrites the stored value, absent columns are kept. -/
def applyPatch (p : DrugInteractionPatch) (r : DrugInteraction) : DrugInteraction :=
  { r with
    medicine1Id := p.medicine1Id.getD r.medicine1Id,
    medicine2Id := p.medicine2Id.getD r.medicine2Id,
    severity := p.severity.getD r.severity,
    description := p.description.getD r.description,
    effects := p.effects.getD r.effects,
    management := p.management.getD r.management }

/-- `PostgresStorage.updateInteraction` (src/server/db-storage.ts 208–228):
canonicalize the patch, apply it to the row whose primary key matches, and
return the updated table together with `result[0]` of `returning()`. -/
def updateInteraction (store : List DrugInteraction) (id : Int)
    (p : DrugInteractionPatch) :
    List DrugInteraction × Option DrugInteraction :=
  let q := canonicalizePatch p
  let updated := store.map fun r => if r.id == id then applyPatch q r else r
  (updated, (updated.filter fun r => r.id == id).head?)

/-- A row of `medication_schedules` (src/shared/schema.ts 66–80); the
`date` columns are carried as their ISO strings, timestamps are not
modelled. -/
structure MedicationSchedule where
  id : Int
  userId : Int
  medicineId : Int
  name : String
  dosage : String
  dosageUnit : String
  instructions : Option String
  startDate : String
  endDate : Option String
  notes : Option String
  active : Bool
  deriving Repr, DecidableEq

/-- A row of `schedule_frequency` (src/shared/schema.ts 83–91): the
`daysOfWeek` column is a nullable comma-separated text of day numbers,
`dayOfMonth` a nullable integer. -/
structure ScheduleFrequency where
  id : Int
  scheduleId : Int
  frequencyType : String
  daysOfWeek : Option String
  dayOfMonth : Option Int
  interval : Option Int
  deriving Repr, DecidableEq

/-- A row of `reminder_times` (src/shared/schema.ts 94–100): `time` is the
string a Postgres `time` column yields, e.g. "08:00:00". -/
structure ReminderTime where
  id : Int
  scheduleId : Int
  time : String
  label : Option String
  deriving Repr, DecidableEq

/-- A row of `medication_logs` (src/shared/schema.ts 103–112); the
timestamps are carried as epoch milliseconds. -/
structure MedicationLog where
  id : Int
  scheduleId : Int
  reminderTimeId : Option Int
  takenAt : Int
  scheduled : Option Int
  status : String
  notes : Option String
  deriving Repr, DecidableEq

/-- The aspects of `new Date()` that `isMedicationDue` consults:
`getDay()` (0–6, 0 = Sunday), `getDate()` (1–31) and the milliseconds
elapsed since the most recent local midnight.  A `Date` copied from `now`
and set with `setHours(h, m, 0, 0)` sits at `(h*60+m)*60000` ms after the
same midnight (JavaScript rolls out-of-range values into later days, which
the unbounded offset also captures), so differences of `getTime()` values
equal differences of these offsets. -/
structure Instant where
  dayOfWeek : Nat
  dayOfMonth : Int
  msOfDay : Int
  deriving Repr, DecidableEq

/-- `String.prototype.split(':')` on the character list: fields between
colon separators, in order, empty fields included. -/
def splitFields : List Char → List (List Char)
  | [] => [[]]
  | c :: cs =>
      let rest := splitFields cs
      if c = (Char.ofNat 58) then [] :: rest
      else
        match rest with
        | [] => [[c]]
        | f :: fs => (c :: f) :: fs

/-- `Number(field)` on one split field: a string of decimal digits parses
to its value (the empty string parses to 0, as in JavaScript); anything
else is `NaN`, rendered as `none` — every comparison against `NaN` is
false, so a reminder with such a field never matches.  Exotic numerals
(signs, fractions, hex, surrounding whitespace) are outside this model; a
Postgres `time` column only produces plain two-digit fields. -/
def jsFieldToNat (cs : List Char) : Option Nat :=
  if cs.all Char.isDigit then
    some (cs.foldl (fun n c => n * 10 + (c.toNat - 48)) 0)
  else none

/-- `reminder.time.split(':').map(Number)` destructured into
`[hours, minutes]`: the first two `:`-separated fields read as numbers; a
missing second field is `undefined` and, like a `NaN` field, makes the
constructed date invalid so the reminder never matches (`none`). -/
def parseHM (t : String) : Option (Nat × Nat) :=
  match (splitFields t.toList).map jsFieldToNat with
  | some h :: some m :: _ => some (h, m)
  | _ => none

/-- The per-reminder test shared verbatim by the daily, weekly and monthly
branches of `isMedicationDue` (src/client/src/lib/reminders.ts 226–234):
build today's occurrence of the reminder time and compare
`Math.abs(now.getTime() - reminderDate.getTime())` against
`30 * 60 * 1000`. -/
def reminderDueNow (now : Instant) (r : ReminderTime) : Bool :=
  match parseHM r.time with
  | some (h, m) =>
      decide ((now.msOfDay - ((h * 60 + m : Nat) : Int) * 60000).natAbs ≤ 30 * 60 * 1000)
  | none => false

/-- Whether `pat` is a prefix of `s`, over character lists. -/
def listIsPrefixB : List Char → List Char → Bool
  | [], _ => true
  | _ :: _, [] => false
  | a :: as, b :: bs => a == b && listIsPrefixB as bs

/-- Whether `pat` occurs as a contiguous substring of `s`. -/
def listIsInfixB (pat : List Char) : List Char → Bool
  | [] => listIsPrefixB pat []
  | c :: rest => listIsPrefixB pat (c :: rest) || listIsInfixB pat rest

/-- `String.prototype.includes(n)` when `n` is a JS number: the argument is
coerced with `toString` and tested for substring containment. -/
def jsStringIncludes (s : String) (n : Nat) : Bool :=
  listIsInfixB (toString n).toList s.toList

/-- `isMedicationDue` (src/client/src/lib/reminders.ts 218–275), with the
`new Date()` the source reads implicitly passed explicitly as `now`.  The
switch over `frequency.frequencyType` becomes the if-chain below; the
source's `if (!frequency) return false` becomes the `none` case; the
weekly branch models `frequency.daysOfWeek?.includes(currentDay)` (null
short-circuits to a falsy result) and the monthly branch
`frequency.dayOfMonth !== currentDate` (a null column never equals a
number). -/
def isMedicationDue (schedule : MedicationSchedule)
    (frequency : Option ScheduleFrequency) (reminders : List ReminderTime)
    (now : Instant) : Bool :=
  match frequency with
  | none => false
  | some f =>
    if f.frequencyType = "daily" then
      reminders.any (reminderDueNow now)
    else if f.frequencyType = "weekly" then
      match f.daysOfWeek with
      | none => false
      | some ds =>
          if jsStringIncludes ds now.dayOfWeek then
            reminders.any (reminderDueNow now)
          else false
    else if f.frequencyType = "monthly" then
      if f.dayOfMonth = some now.dayOfMonth then
        reminders.any (reminderDueNow now)
      else false
    else if f.frequencyType = "as_needed" then
      false
    else
      false

/-- Spec-side restatement of the §4.4 due window, written from the
specification text: a reminder is within the window when combining today's
date with its hour and minute gives an instant at most 30 minutes away from
`now` in either direction (inclusive), with no wraparound across midnight —
the offset is measured against today's occurrence of the time only. -/
def reminderWithin30 (now : Instant) (r : ReminderTime) : Prop :=
  ∃ p : Nat × Nat, parseHM r.time = some p ∧
    (now.msOfDay - ((p.1 * 60 + p.2 : Nat) : Int) * 60000).natAbs ≤ 30 * 60 * 1000

/-- The weekly calendar gate of `isMedicationDue`: the `daysOfWeek` column
is present and `daysOfWeek.includes(currentDay)` holds. -/
def weeklyGatePassed (f : ScheduleFrequency) (now : Instant) : Prop :=
  ∃ ds, f.daysOfWeek = some ds ∧ jsStringIncludes ds now.dayOfWeek = true

/-- The monthly calendar gate of `isMedicationDue`: the `dayOfMonth` column
equals today's day of month. -/
def monthlyGatePassed (f : ScheduleFrequency) (now : Instant) : Prop :=
  f.dayOfMonth = some now.dayOfMonth

/-- The four tables owned by the schedule aggregate, as touched by
`deleteMedicationSchedule`. -/
structure ScheduleDb where
  medicationSchedules : List MedicationSchedule
  scheduleFrequency : List ScheduleFrequency
  reminderTimes : List ReminderTime
  medicationLogs : List MedicationLog
  deriving Repr, DecidableEq

/-- `DELETE FROM reminder_times WHERE schedule_id = ?`
(src/server/db-storage.ts 324). -/
def deleteReminderTimesForSchedule (db : ScheduleDb) (scheduleId : Int) : ScheduleDb :=
  { db with reminderTimes := db.reminderTimes.filter fun r => !(r.scheduleId == scheduleId) }

/-- `DELETE FROM schedule_frequency WHERE schedule_id = ?`
(src/server/db-storage.ts 325). -/
def deleteFrequencyForSchedule (db : ScheduleDb) (scheduleId : Int) : ScheduleDb :=
  { db with scheduleFrequency := db.scheduleFrequency.filter fun f => !(f.scheduleId == scheduleId) }

/-- `DELETE FROM medication_logs WHERE schedule_id = ?`
(src/server/db-storage.ts 326). -/
def deleteLogsForSchedule (db : ScheduleDb) (scheduleId : Int) : ScheduleDb :=
  { db with medicationLogs := db.medicationLogs.filter fun l => !(l.scheduleId == scheduleId) }

/-- `DELETE FROM medication_schedules WHERE id = ? RETURNING *`
(src/server/db-storage.ts 329–333): the boolean is `result.length > 0`. -/
def deleteScheduleRow (db : ScheduleDb) (id : Int) : ScheduleDb × Bool :=
  let deleted := db.medicationSchedules.filter fun s => s.id == id
  ({ db with medicationSchedules := db.medicationSchedules.filter fun s => !(s.id == id) },
   decide (0 < deleted.length))

/-- `PostgresStorage.deleteMedicationSchedule` (src/server/db-storage.ts
322–334): the three child deletions in the source's order — reminder
times, then the frequency, then the logs — followed by the parent row. -/
def deleteMedicationSchedule (db : ScheduleDb) (id : Int) : ScheduleDb × Bool :=
  let db1 := deleteReminderTimesForSchedule db id
  let db2 := deleteFrequencyForSchedule db1 id
  let db3 := deleteLogsForSchedule db2 id
  deleteScheduleRow db3 id

/-- Insertion step for `ORDER BY time` (ascending, string order). -/
def insertByTime (r : ReminderTime) : List ReminderTime → List ReminderTime
  | [] => [r]
  | x :: xs => if r.time ≤ x.time then r :: x :: xs else x :: insertByTime r xs

/-- `ORDER BY time` on reminder rows, as an insertion sort. -/
def sortByTime : List ReminderTime → List ReminderTime
  | [] => []
  | x :: xs => insertByTime x (sortByTime xs)

/-- Insertion step for `ORDER BY taken_at DESC`. -/
def insertByTakenAtDesc (l : MedicationLog) : List MedicationLog → List MedicationLog
  | [] => [l]
  | x :: xs => if x.takenAt ≤ l.takenAt then l :: x :: xs else x :: insertByTakenAtDesc l xs

/-- `ORDER BY taken_at DESC` on log rows, as an insertion sort. -/
def sortByTakenAtDesc : List MedicationLog → List MedicationLog
  | [] => []
  | x :: xs => insertByTakenAtDesc x (sortByTakenAtDesc xs)

/-- `PostgresStorage.getReminderTimesForSchedule` (src/server/db-storage.ts
375–379): filter on the schedule id, ordered by time. -/
def getReminderTimesForSchedule (db : ScheduleDb) (scheduleId : Int) : List ReminderTime :=
  sortByTime (db.reminderTimes.filter fun r => r.scheduleId == scheduleId)

/-- `PostgresStorage.getScheduleFrequencyForSchedule`
(src/server/db-storage.ts 348–352): filter on the schedule id, `results[0]`. -/
def getScheduleFrequencyForSchedule (db : ScheduleDb) (scheduleId : Int) :
    Option ScheduleFrequency :=
  (db.scheduleFrequency.filter fun f => f.scheduleId == scheduleId).head?

/-- `PostgresStorage.getMedicationLogsForSchedule`
(src/server/db-storage.ts 410–415): filter on the schedule id, ordered by
`takenAt` descending, limited. -/
def getMedicationLogsForSchedule (db : ScheduleDb) (scheduleId : Int)
    (limit : Nat) : List MedicationLog :=
  (sortByTakenAtDesc (db.medicationLogs.filter fun l => l.scheduleId == scheduleId)).take limit

/-- `PostgresStorage.getMedicationScheduleById`
(src/server/db-storage.ts 292–296). -/
def getMedicationScheduleById (db : ScheduleDb) (id : Int) : Option MedicationSchedule :=
  (db.medicationSchedules.filter fun s => s.id == id).head?

/-- The shape of `data.medicineIds` inside a parsed WebSocket message:
either a JavaScript array (`Array.isArray` true) or any other value.  The
array elements are the primitives of `JsPrim`; see there for why this
loses no behavior. -/
inductive JsValue where
  | prim (p : JsPrim)
  | arr (elems : List JsPrim)
  deriving Repr, DecidableEq

/-- A parsed incoming WebSocket frame, reduced to the two fields the
handler reads. -/
structure WsMessage where
  type : String
  medicineIds : JsValue
  deriving Repr, DecidableEq

/-- An outgoing WebSocket frame: either an `interactions_result` or an
`error` message. -/
inductive WsReply where
  | interactionsResult (interactions : List DrugInteractionDetail)
  | errorReply (message : String)
  deriving Repr, DecidableEq

/-- Observable effect of handling one WebSocket message: the frames sent
back on the socket, and whether `storage.checkInteractions` was invoked. -/
structure WsOutcome where
  sent : List WsReply
  resolverInvoked : Bool
  deriving Repr, DecidableEq

/-- The per-message handler of `wss.on('connection')`
(src/server/routes.ts 843–878) for an already-parsed frame: on a
`check_interactions` message, `!Array.isArray(data.medicineIds) ||
data.medicineIds.length < 2` emits the error reply and returns before
storage is touched; otherwise the raw element list — unvalidated — is
handed to `storage.checkInteractions` and its result is sent back.  Any
other message type falls through the `if` and nothing is sent. -/
def handleWsMessage (medicines : List Medicine) (store : List DrugInteraction)
    (msg : WsMessage) : WsOutcome :=
  if msg.type = "check_interactions" then
    match msg.medicineIds with
    | .arr elems =>
        if elems.length < 2 then
          { sent := [.errorReply "At least two valid medicine IDs are required"],
            resolverInvoked := false }
        else
          { sent := [.interactionsResult (checkInteractions medicines store elems)],
            resolverInvoked := true }
    | .prim _ =>
        { sent := [.errorReply "At least two valid medicine IDs are required"],
          resolverInvoked := false }
  else
    { sent := [], resolverInvoked := false }

/-- A concrete schedule row, used to instantiate theorems. -/
def sampleSchedule : MedicationSchedule :=
  { id := 1, userId := 1, medicineId := 1, name := "Aspirin morning",
    dosage := "100", dosageUnit := "mg", instructions := none,
    startDate := "2025-01-01", endDate := none, notes := none, active := true }

/-- A second concrete schedule row differing from `sampleSchedule` in every
non-key field, including the date bounds. -/
def sampleSchedule2 : MedicationSchedule :=
  { id := 2, userId := 9, medicineId := 7, name := "Other",
    dosage := "250", dosageUnit := "ml", instructions := some "with food",
    startDate := "2026-02-02", endDate := some "2027-01-01",
    notes := some "n", active := false }

/-- A concrete daily frequency row. -/
def dailyFreq : ScheduleFrequency :=
  { id := 1, scheduleId := 1, frequencyType := "daily", daysOfWeek := none,
    dayOfMonth := none, interval := some 1 }

/-- A concrete as-needed frequency row. -/
def asNeededFreq : ScheduleFrequency :=
  { id := 2, scheduleId := 1, frequencyType := "as_needed", daysOfWeek := none,
    dayOfMonth := none, interval := some 1 }

/-- A concrete reminder row at 08:00, as a Postgres `time` column renders it. -/
def eightAm : ReminderTime :=
  { id := 1, scheduleId := 1, time := "08:00:00", label := some "Morning" }

/-- A concrete instant at 08:30:00.000 local time on some Wednesday the 15th. -/
def at0830 : Instant :=
  { dayOfWeek := 3, dayOfMonth := 15, msOfDay := 30600000 }

/-- A concrete medicine row. -/
def aspirin : Medicine :=
  { id := 1, name := "Aspirin", description := "Pain reliever",
    category := "Analgesic" }

/-- A second concrete medicine row. -/
def warfarin : Medicine :=
  { id := 2, name := "Warfarin", description := "Anticoagulant",
    category := "Blood thinner" }

/-- A concrete stored interaction row between `aspirin` and `warfarin`. -/
def aspirinWarfarin : DrugInteraction :=
  { id := 10, medicine1Id := 1, medicine2Id := 2, severity := "Major",
    description := "Increased bleeding risk", effects := "Bleeding",
    management := none }

/-- The detail produced by joining `aspirinWarfarin` with both records. -/
def aspirinWarfarinDetail : DrugInteractionDetail :=
  { interaction := aspirinWarfarin, medicine1 := aspirin, medicine2 := warfarin }

/-- A concrete insert payload whose two medicine ids are equal. -/
def selfPairIns : InsertDrugInteraction :=
  { medicine1Id := 5, medicine2Id := 5, severity := "Minor",
    description := "d", effects := "e", management := none }

/-- A concrete insert payload supplied in descending id order. -/
def descPairIns : InsertDrugInteraction :=
  { medicine1Id := 7, medicine2Id := 3, severity := "Minor",
    description := "d", effects := "e", management := none }

/-- A concrete patch carrying both medicine ids, in descending order. -/
def descPatch : DrugInteractionPatch :=
  { medicine1Id := some 9, medicine2Id := some 6, severity := none,
    description := none, effects := none, management := none }

/-! Theorems. -/

theorem reminderDueNow_iff (now : Instant) (r : ReminderTime) :
    reminderDueNow now r = true ↔ reminderWithin30 now r := by
  unfold reminderDueNow reminderWithin30
  cases hp : parseHM r.time with
  | none => simp [hp]
  | some p =>
      obtain ⟨h, m⟩ := p
      simp [hp]

theorem any_reminderDueNow_iff (now : Instant) (rs : List ReminderTime) :
    rs.any (reminderDueNow now) = true ↔ ∃ r ∈ rs, reminderWithin30 now r := by
  rw [List.any_eq_true]
  constructor
  · rintro ⟨r, hr, hdue⟩
    exact ⟨r, hr, (reminderDueNow_iff now r).mp hdue⟩
  · rintro ⟨r, hr, hw⟩
    exact ⟨r, hr, (reminderDueNow_iff now r).mpr hw⟩

/-- C10: when the frequency argument is null/undefined, `isMedicationDue`
returns false instead of throwing — the due computation fails closed when
the 1:1 frequency record is absent. -/
theorem isMedicationDue_no_frequency_false (s : MedicationSchedule)
    (reminders : List ReminderTime) (now : Instant) :
    isMedicationDue s none reminders now = false := rfl

/-- C7: `isMedicationDue` is a pure, deterministic function of the
frequency, the reminder list and the instant; its result is independent of
every field of the schedule argument, including `startDate` and `endDate`,
so two calls with identical frequency, reminder list and instant agree
whatever schedule rows they are given. -/
theorem isMedicationDue_schedule_independent (s1 s2 : MedicationSchedule)
    (frequency : Option ScheduleFrequency) (reminders : List ReminderTime)
    (now : Instant) :
    isMedicationDue s1 frequency reminders now
      = isMedicationDue s2 frequency reminders now := rfl

/-- C3: a schedule whose frequency type is `as_needed` is never
automatically due: `isMedicationDue` returns false for every schedule,
reminder list and instant. -/
theorem as_needed_never_due (s : MedicationSchedule) (f : ScheduleFrequency)
    (reminders : List ReminderTime) (now : Instant)
    (h : f.frequencyType = "as_needed") :
    isMedicationDue s (some f) reminders now = false := by
  simp [isMedicationDue, h]

theorem as_needed_never_due_witness :
    asNeededFreq.frequencyType = "as_needed"
    ∧ isMedicationDue sampleSchedule (some asNeededFreq) [eightAm] at0830 = false :=
  ⟨rfl, as_needed_never_due sampleSchedule asNeededFreq [eightAm] at0830 rfl⟩

/-- C2: for a daily schedule, or a weekly/monthly schedule whose calendar
gate passed, `isMedicationDue` returns true exactly when some reminder
time in the list, combined with today's date, lies within 30 minutes of
`now` inclusive — the window is symmetric, the boundary counts as due, and
no wraparound across midnight is performed (the offset is against today's
occurrence of the reminder time only). -/
theorem isMedicationDue_window (s : MedicationSchedule) (f : ScheduleFrequency)
    (reminders : List ReminderTime) (now : Instant)
    (hgate : f.frequencyType = "daily"
      ∨ (f.frequencyType = "weekly" ∧ weeklyGatePassed f now)
      ∨ (f.frequencyType = "monthly" ∧ monthlyGatePassed f now)) :
    isMedicationDue s (some f) reminders now = true
      ↔ ∃ r ∈ reminders, reminderWithin30 now r := by
  rcases hgate with hd | ⟨hw, ds, hds, hinc⟩ | ⟨hm, hdom⟩
  · rw [show isMedicationDue s (some f) reminders now
        = reminders.any (reminderDueNow now) by simp [isMedicationDue, hd]]
    exact any_reminderDueNow_iff now reminders
  · rw [show isMedicationDue s (some f) reminders now
        = reminders.any (reminderDueNow now) by simp [isMedicationDue, hw, hds, hinc]]
    exact any_reminderDueNow_iff now reminders
  · rw [show isMedicationDue s (some f) reminders now
        = reminders.any (reminderDueNow now) by
          simp [isMedicationDue, hm, monthlyGatePassed] at hdom ⊢
          simp [hdom]]
    exact any_reminderDueNow_iff now reminders

theorem isMedicationDue_window_witness :
    (dailyFreq.frequencyType = "daily"
      ∨ (dailyFreq.frequencyType = "weekly" ∧ weeklyGatePassed dailyFreq at0830)
      ∨ (dailyFreq.frequencyType = "monthly" ∧ monthlyGatePassed dailyFreq at0830))
    ∧ (isMedicationDue sampleSchedule (some dailyFreq) [eightAm] at0830 = true
        ↔ ∃ r ∈ [eightAm], reminderWithin30 at0830 r) :=
  ⟨Or.inl rfl,
   isMedicationDue_window sampleSchedule dailyFreq [eightAm] at0830 (Or.inl rfl)⟩

theorem jsContains_map_num (ids : List Int) (n : Int) :
    jsContains (ids.map JsPrim.num) n = true ↔ n ∈ ids := by
  unfold jsContains
  rw [List.any_eq_true]
  constructor
  · rintro ⟨v, hv, hb⟩
    obtain ⟨x, hx, rfl⟩ := List.mem_map.mp hv
    have hxn : x = n := by
      have := eq_of_beq hb
      injection this
    exact hxn ▸ hx
  · intro hn
    exact ⟨JsPrim.num n, List.mem_map_of_mem _ hn, by simp⟩

theorem joinDetail_eq_some_iff (medicines : List Medicine) (i : DrugInteraction)
    (d : DrugInteractionDetail) :
    joinDetail medicines i = some d ↔
      i = d.interaction
      ∧ getMedicineById medicines i.medicine1Id = some d.medicine1
      ∧ getMedicineById medicines i.medicine2Id = some d.medicine2 := by
  obtain ⟨di, dm1, dm2⟩ := d
  cases h1 : getMedicineById medicines i.medicine1Id <;>
    cases h2 : getMedicineById medicines i.medicine2Id <;>
      simp [joinDetail, h1, h2]

theorem checkInteractions_of_two_le (medicines : List Medicine)
    (store : List DrugInteraction) (xs : List JsPrim) (h : 2 ≤ xs.length) :
    checkInteractions medicines store xs =
      ((store.filter fun i =>
          jsContains xs i.medicine1Id || jsContains xs i.medicine2Id).filter
        fun i => jsContains xs i.medicine1Id && jsContains xs i.medicine2Id).filterMap
          (joinDetail medicines) := by
  unfold checkInteractions
  rw [if_neg (by omega)]

theorem filter_congr_local {α : Type} (p q : α → Bool) (h : ∀ a, p a = q a)
    (l : List α) : l.filter p = l.filter q := by
  induction l with
  | nil => rfl
  | cons x xs ih => simp [List.filter_cons, h x, ih]

/-- C1: for an input list of at least two medicine ids, `checkInteractions`
returns exactly the stored interaction rows whose two medicine ids both
appear in the input and whose two medicine records both resolve in the
directory — no more, no fewer — and the result is unchanged under any
reordering of the input; a pair whose medicine record is missing is
silently omitted rather than reported as an error. -/
theorem checkInteractions_exact_pairs (medicines : List Medicine)
    (store : List DrugInteraction) (ids ids2 : List Int)
    (d : DrugInteractionDetail)
    (hlen : 2 ≤ ids.length) (hlen2 : 2 ≤ ids2.length)
    (hsame : ∀ x : Int, x ∈ ids ↔ x ∈ ids2) :
    (d ∈ checkInteractions medicines store (ids.map JsPrim.num) ↔
      d.interaction ∈ store
      ∧ d.interaction.medicine1Id ∈ ids
      ∧ d.interaction.medicine2Id ∈ ids
      ∧ getMedicineById medicines d.interaction.medicine1Id = some d.medicine1
      ∧ getMedicineById medicines d.interaction.medicine2Id = some d.medicine2)
    ∧ checkInteractions medicines store (ids.map JsPrim.num)
        = checkInteractions medicines store (ids2.map JsPrim.num) := by
  have hxlen : 2 ≤ (ids.map JsPrim.num).length := by simpa using hlen
  have hxlen2 : 2 ≤ (ids2.map JsPrim.num).length := by simpa using hlen2
  constructor
  · rw [checkInteractions_of_two_le medicines store _ hxlen]
    constructor
    · intro hd
      obtain ⟨i, hi, hj⟩ := List.mem_filterMap.mp hd
      obtain ⟨hi2, hboth⟩ := List.mem_filter.mp hi
      obtain ⟨histore, _⟩ := List.mem_filter.mp hi2
      obtain ⟨heq, hg1, hg2⟩ := (joinDetail_eq_some_iff medicines i d).mp hj
      subst heq
      rw [Bool.and_eq_true] at hboth
      obtain ⟨hb1, hb2⟩ := hboth
      exact ⟨histore, (jsContains_map_num ids _).mp hb1,
        (jsContains_map_num ids _).mp hb2, hg1, hg2⟩
    · rintro ⟨histore, h1, h2, hg1, hg2⟩
      refine List.mem_filterMap.mpr ⟨d.interaction, ?_, ?_⟩
      · refine List.mem_filter.mpr ⟨List.mem_filter.mpr ⟨histore, ?_⟩, ?_⟩
        · simp [(jsContains_map_num ids _).mpr h1]
        · simp [(jsContains_map_num ids _).mpr h1, (jsContains_map_num ids _).mpr h2]
      · exact (joinDetail_eq_some_iff medicines d.interaction d).mpr ⟨rfl, hg1, hg2⟩
  · have hc : ∀ n, jsContains (ids.map JsPrim.num) n
        = jsContains (ids2.map JsPrim.num) n := by
      intro n
      by_cases hn : n ∈ ids
      · rw [(jsContains_map_num ids n).mpr hn,
          (jsContains_map_num ids2 n).mpr ((hsame n).mp hn)]
      · have h1 : jsContains (ids.map JsPrim.num) n = false := by
          cases h : jsContains (ids.map JsPrim.num) n
          · rfl
          · exact absurd ((jsContains_map_num ids n).mp h) hn
        have h2 : jsContains (ids2.map JsPrim.num) n = false := by
          cases h : jsContains (ids2.map JsPrim.num) n
          · rfl
          · exact absurd ((hsame n).mpr ((jsContains_map_num ids2 n).mp h)) hn
        rw [h1, h2]
    rw [checkInteractions_of_two_le medicines store _ hxlen,
      checkInteractions_of_two_le medicines store _ hxlen2]
    congr 1
    rw [filter_congr_local
        (fun (i : DrugInteraction) =>
          jsContains (ids.map JsPrim.num) i.medicine1Id
            && jsContains (ids.map JsPrim.num) i.medicine2Id)
        (fun (i : DrugInteraction) =>
          jsContains (ids2.map JsPrim.num) i.medicine1Id
            && jsContains (ids2.map JsPrim.num) i.medicine2Id)
        (fun i => by simp only [hc]) _,
      filter_congr_local
        (fun (i : DrugInteraction) =>
          jsContains (ids.map JsPrim.num) i.medicine1Id
            || jsContains (ids.map JsPrim.num) i.medicine2Id)
        (fun (i : DrugInteraction) =>
          jsContains (ids2.map JsPrim.num) i.medicine1Id
            || jsContains (ids2.map JsPrim.num) i.medicine2Id)
        (fun i => by simp only [hc]) store]

theorem checkInteractions_exact_pairs_witness :
    (2 ≤ ([1, 2] : List Int).length)
    ∧ (2 ≤ ([2, 1] : List Int).length)
    ∧ (∀ x : Int, x ∈ ([1, 2] : List Int) ↔ x ∈ ([2, 1] : List Int))
    ∧ ((aspirinWarfarinDetail ∈ checkInteractions [aspirin, warfarin]
          [aspirinWarfarin] (([1, 2] : List Int).map JsPrim.num) ↔
        aspirinWarfarinDetail.interaction ∈ [aspirinWarfarin]
        ∧ aspirinWarfarinDetail.interaction.medicine1Id ∈ ([1, 2] : List Int)
        ∧ aspirinWarfarinDetail.interaction.medicine2Id ∈ ([1, 2] : List Int)
        ∧ getMedicineById [aspirin, warfarin]
            aspirinWarfarinDetail.interaction.medicine1Id
            = some aspirinWarfarinDetail.medicine1
        ∧ getMedicineById [aspirin, warfarin]
            aspirinWarfarinDetail.interaction.medicine2Id
            = some aspirinWarfarinDetail.medicine2)
      ∧ checkInteractions [aspirin, warfarin] [aspirinWarfarin]
          (([1, 2] : List Int).map JsPrim.num)
        = checkInteractions [aspirin, warfarin] [aspirinWarfarin]
          (([2, 1] : List Int).map JsPrim.num)) :=
  ⟨by decide, by decide,
   fun x => by
     simp only [List.mem_cons, List.not_mem_nil, or_false]
     tauto,
   checkInteractions_exact_pairs [aspirin, warfarin] [aspirinWarfarin]
     [1, 2] [2, 1] aspirinWarfarinDetail (by decide) (by decide)
     (fun x => by
       simp only [List.mem_cons, List.not_mem_nil, or_false]
       tauto)⟩

/-- C4 counterexample: `addInteraction` applied to the self-pair (5, 5)
stores the row — the resulting table is exactly the returned row — instead
of failing; no `InvalidPairError` rejection exists on the write path. -/
theorem addInteraction_self_pair_counterexample :
    (addInteraction [] 1 selfPairIns).2.medicine1Id = 5
    ∧ (addInteraction [] 1 selfPairIns).2.medicine2Id = 5
    ∧ (addInteraction [] 1 selfPairIns).1 = [(addInteraction [] 1 selfPairIns).2] :=
  ⟨rfl, rfl, rfl⟩

/-- C4 (amended): canonicalization of an equal pair is the identity, not a
rejection: for every insert payload with `medicine1Id = medicine2Id`,
`addInteraction` persists the row with both ids equal to that id and
returns it as a member of the grown table. -/
theorem addInteraction_self_pair_stored (store : List DrugInteraction)
    (nextId : Int) (ins : InsertDrugInteraction)
    (h : ins.medicine1Id = ins.medicine2Id) :
    (addInteraction store nextId ins).2.medicine1Id = ins.medicine1Id
    ∧ (addInteraction store nextId ins).2.medicine2Id = ins.medicine1Id
    ∧ (addInteraction store nextId ins).2 ∈ (addInteraction store nextId ins).1 := by
  have hng : ¬ ins.medicine1Id > ins.medicine2Id := by omega
  refine ⟨?_, ?_, ?_⟩ <;> simp [addInteraction, hng, h]

theorem addInteraction_self_pair_stored_witness :
    selfPairIns.medicine1Id = selfPairIns.medicine2Id
    ∧ ((addInteraction [] 2 selfPairIns).2.medicine1Id = selfPairIns.medicine1Id
      ∧ (addInteraction [] 2 selfPairIns).2.medicine2Id = selfPairIns.medicine1Id
      ∧ (addInteraction [] 2 selfPairIns).2 ∈ (addInteraction [] 2 selfPairIns).1) :=
  ⟨rfl, addInteraction_self_pair_stored [] 2 selfPairIns rfl⟩

theorem canonicalizePatch_both (p : DrugInteractionPatch) (a b : Int)
    (hp1 : p.medicine1Id = some a) (hp2 : p.medicine2Id = some b) :
    (canonicalizePatch p).medicine1Id = some (min a b)
    ∧ (canonicalizePatch p).medicine2Id = some (max a b) := by
  obtain ⟨pm1, pm2, ps, pd, pe, pmg⟩ := p
  replace hp1 : pm1 = some a := hp1
  replace hp2 : pm2 = some b := hp2
  subst hp1
  subst hp2
  by_cases hab : a > b
  · constructor <;> simp [canonicalizePatch, hab] <;> omega
  · constructor <;> simp [canonicalizePatch, hab] <;> omega

/-- C5: every interaction write canonicalizes id order: `addInteraction`
with distinct ids persists min(a,b) as `medicine1Id` and max(a,b) as
`medicine2Id` (strictly ascending, never the larger id first), and
`updateInteraction` applies the same reordering whenever both medicine ids
are supplied in the patch — every row it rewrites carries min first, max
second. -/
theorem interaction_writes_canonicalize (store store2 : List DrugInteraction)
    (nextId id : Int) (ins : InsertDrugInteraction) (p : DrugInteractionPatch)
    (a b : Int) (hne : ins.medicine1Id ≠ ins.medicine2Id)
    (hp1 : p.medicine1Id = some a) (hp2 : p.medicine2Id = some b) :
    ((addInteraction store nextId ins).2.medicine1Id
        = min ins.medicine1Id ins.medicine2Id
      ∧ (addInteraction store nextId ins).2.medicine2Id
        = max ins.medicine1Id ins.medicine2Id
      ∧ (addInteraction store nextId ins).2.medicine1Id
        < (addInteraction store nextId ins).2.medicine2Id)
    ∧ ∀ r ∈ (updateInteraction store2 id p).1, r.id = id →
        r.medicine1Id = min a b ∧ r.medicine2Id = max a b := by
  constructor
  · by_cases hgt : ins.medicine1Id > ins.medicine2Id
    · refine ⟨?_, ?_, ?_⟩ <;> simp [addInteraction, hgt] <;> omega
    · refine ⟨?_, ?_, ?_⟩ <;> simp [addInteraction, hgt] <;> omega
  · intro r hr hrid
    obtain ⟨hq1, hq2⟩ := canonicalizePatch_both p a b hp1 hp2
    have hr2 : r ∈ store2.map fun r0 =>
        if r0.id == id then applyPatch (canonicalizePatch p) r0 else r0 := hr
    obtain ⟨r0, hr0, hmap⟩ := List.mem_map.mp hr2
    by_cases hbeq : r0.id == id
    · rw [if_pos hbeq] at hmap
      subst hmap
      constructor
      · show ((canonicalizePatch p).medicine1Id.getD r0.medicine1Id) = min a b
        rw [hq1]
        rfl
      · show ((canonicalizePatch p).medicine2Id.getD r0.medicine2Id) = max a b
        rw [hq2]
        rfl
    · rw [if_neg hbeq] at hmap
      subst hmap
      exact absurd hrid (by simpa using hbeq)

theorem interaction_writes_canonicalize_witness :
    descPairIns.medicine1Id ≠ descPairIns.medicine2Id
    ∧ descPatch.medicine1Id = some 9
    ∧ descPatch.medicine2Id = some 6
    ∧ (((addInteraction [] 1 descPairIns).2.medicine1Id
          = min descPairIns.medicine1Id descPairIns.medicine2Id
        ∧ (addInteraction [] 1 descPairIns).2.medicine2Id
          = max descPairIns.medicine1Id descPairIns.medicine2Id
        ∧ (addInteraction [] 1 descPairIns).2.medicine1Id
          < (addInteraction [] 1 descPairIns).2.medicine2Id)
      ∧ ∀ r ∈ (updateInteraction [aspirinWarfarin] 10 descPatch).1, r.id = 10 →
          r.medicine1Id = min 9 6 ∧ r.medicine2Id = max 9 6) :=
  ⟨by decide, rfl, rfl,
   interaction_writes_canonicalize [] [aspirinWarfarin] 1 10 descPairIns descPatch
     9 6 (by decide) rfl rfl⟩

theorem filter_not_self_nil {α : Type} (p : α → Bool) (l : List α) :
    (l.filter fun a => !(p a)).filter p = [] := by
  induction l with
  | nil => rfl
  | cons x xs ih =>
      cases hx : p x
      · simp [List.filter_cons, hx, ih]
      · simp [List.filter_cons, hx, ih]

/-- C6: `deleteMedicationSchedule` is exactly the composition of the four
deletions in the stated order — all reminder times, then the frequency,
then all logs, then the schedule row — and afterwards the reminder-time,
frequency, log and schedule lookups for that schedule id all return
empty/none: no orphan child rows remain. -/
theorem deleteMedicationSchedule_cascade (db : ScheduleDb) (id : Int) (limit : Nat) :
    deleteMedicationSchedule db id
      = deleteScheduleRow (deleteLogsForSchedule (deleteFrequencyForSchedule
          (deleteReminderTimesForSchedule db id) id) id) id
    ∧ getReminderTimesForSchedule (deleteMedicationSchedule db id).1 id = []
    ∧ getScheduleFrequencyForSchedule (deleteMedicationSchedule db id).1 id = none
    ∧ getMedicationLogsForSchedule (deleteMedicationSchedule db id).1 id limit = []
    ∧ getMedicationScheduleById (deleteMedicationSchedule db id).1 id = none := by
  refine ⟨rfl, ?_, ?_, ?_, ?_⟩
  · show sortByTime ((db.reminderTimes.filter fun r => !(r.scheduleId == id)).filter
        fun r => r.scheduleId == id) = []
    rw [filter_not_self_nil]
    rfl
  · show ((db.scheduleFrequency.filter fun f => !(f.scheduleId == id)).filter
        fun f => f.scheduleId == id).head? = none
    rw [filter_not_self_nil]
    rfl
  · show (sortByTakenAtDesc ((db.medicationLogs.filter fun l => !(l.scheduleId == id)).filter
        fun l => l.scheduleId == id)).take limit = []
    rw [filter_not_self_nil]
    simp [sortByTakenAtDesc]
  · show ((db.medicationSchedules.filter fun s => !(s.id == id)).filter
        fun s => s.id == id).head? = none
    rw [filter_not_self_nil]
    rfl

/-- C8 counterexample: the storage-layer resolver `checkInteractions`,
given a single medicine id against a populated directory and store, returns
an (empty) result list rather than raising an insufficient-input error —
the function has no failure channel at all; only the HTTP route guards with
a 400. -/
theorem checkInteractions_short_input_counterexample :
    checkInteractions [aspirin, warfarin] [aspirinWarfarin] [JsPrim.num 1] = [] := rfl

/-- C8 (amended): for fewer than two medicine ids the HTTP route handler
answers 400 with the insufficient-input message before the storage layer is
invoked, while the storage-level `checkInteractions` itself does not fail
on such input — it returns the empty result list. -/
theorem check_insufficient_input (medicines : List Medicine)
    (store : List DrugInteraction) (ids : List Int) (h : ids.length < 2) :
    checkInteractionsRoute medicines store ids
      = HttpCheckResponse.badRequest
          "At least two medicines must be provided to check for interactions"
    ∧ checkInteractions medicines store (ids.map JsPrim.num) = [] := by
  constructor
  · unfold checkInteractionsRoute
    rw [if_pos h]
  · unfold checkInteractions
    rw [if_pos (by simpa using h)]

theorem check_insufficient_input_witness :
    (([3] : List Int).length < 2)
    ∧ (checkInteractionsRoute [aspirin, warfarin] [aspirinWarfarin] [3]
        = HttpCheckResponse.badRequest
            "At least two medicines must be provided to check for interactions"
      ∧ checkInteractions [aspirin, warfarin] [aspirinWarfarin]
          (([3] : List Int).map JsPrim.num) = []) :=
  ⟨by decide,
   check_insufficient_input [aspirin, warfarin] [aspirinWarfarin] [3] (by decide)⟩

/-- C9 counterexample: a `check_interactions` message whose `medicineIds`
is an array of two string elements — not numeric identifiers — passes the
handler's validation, which checks only `Array.isArray` and the length,
and is handed to the resolver; the reply is an `interactions_result`, not
an error. -/
theorem ws_nonnumeric_ids_reach_resolver_counterexample :
    handleWsMessage [aspirin, warfarin] [aspirinWarfarin]
        { type := "check_interactions",
          medicineIds := JsValue.arr [JsPrim.str "1", JsPrim.str "2"] }
      = { sent := [WsReply.interactionsResult []], resolverInvoked := true } := rfl

/-- C9 (amended): for a `check_interactions` message whose `medicineIds`
field is not an array, or is an array with fewer than two elements, the
handler immediately sends the error reply and never invokes the resolver;
numericity of the elements is not validated before the resolver is
invoked. -/
theorem ws_invalid_ids_rejected (medicines : List Medicine)
    (store : List DrugInteraction) (msg : WsMessage)
    (htype : msg.type = "check_interactions")
    (hbad : ∀ elems, msg.medicineIds = JsValue.arr elems → elems.length < 2) :
    handleWsMessage medicines store msg
      = { sent := [WsReply.errorReply "At least two valid medicine IDs are required"],
          resolverInvoked := false } := by
  unfold handleWsMessage
  rw [if_pos htype]
  cases hmid : msg.medicineIds with
  | prim p => rfl
  | arr elems =>
      have hlt := hbad elems hmid
      simp [hlt]

theorem ws_invalid_ids_rejected_witness :
    (WsMessage.mk "check_interactions" (JsValue.prim (JsPrim.num 3))).type
        = "check_interactions"
    ∧ (∀ elems, (WsMessage.mk "check_interactions"
          (JsValue.prim (JsPrim.num 3))).medicineIds
            = JsValue.arr elems → elems.length < 2)
    ∧ handleWsMessage [] []
        (WsMessage.mk "check_interactions" (JsValue.prim (JsPrim.num 3)))
      = { sent := [WsReply.errorReply "At least two valid medicine IDs are required"],
          resolverInvoked := false } :=
  ⟨rfl, fun _ h => JsValue.noConfusion h,
   ws_invalid_ids_rejected [] []
     (WsMessage.mk "check_interactions" (JsValue.prim (JsPrim.num 3))) rfl
     (fun _ h => JsValue.noConfusion h)⟩
